import Mathlib

set_option maxRecDepth 8000

/-!
Shallow embedding of the FlipBird game (`src/flappy_bird.py`) and proofs of
specification properties about it.

Python floats are modelled by `ℚ` (every constant in the program — 1.5, -10.5,
16, 2, 5 — is a dyadic rational and all arithmetic on the reachable states is
exact in binary floating point, so `ℚ` is a faithful model), Python ints by
`ℤ`, and counters by `ℕ`.  Sprite surfaces live in image files that are not
part of the source tree; their pixel masks and dimensions enter the model as
parameters (`Env`).
-/

namespace FlipBird

/-- `SCREEN_WIDTH = 500` (flappy_bird.py line 12). -/
def SCREEN_WIDTH : ℤ := 500

/-- `SCREEN_HEIGHT = 800` (flappy_bird.py line 13). -/
def SCREEN_HEIGHT : ℤ := 800

/-- A pixel-opacity mask: the list of opaque pixel coordinates of a sprite
(`pygame.mask.from_surface`).  The concrete pixels come from image assets that
are not in the source tree, so masks are data the model is parametric in. -/
def Mask : Type := List (ℤ × ℤ)

/-- `bird_mask.overlap(other_mask, offset)`: true iff some opaque pixel `p` of
the first mask coincides with an opaque pixel of the second mask shifted by
`offset`. -/
def Mask.overlapAt (m1 m2 : Mask) (off : ℤ × ℤ) : Bool :=
  m1.any fun p => m2.any fun q => q.1 + off.1 == p.1 && q.2 + off.2 == p.2

/-- Python's `round` on a float: round half to even (banker's rounding). -/
def pyRound (q : ℚ) : ℤ :=
  let f := ⌊q⌋
  let r := q - (f : ℚ)
  if r < 1/2 then f
  else if 1/2 < r then f + 1
  else if f % 2 = 0 then f else f + 1

/-- Image data loaded from asset files (`imgs/…`), absent from the source
tree: the three bird sprite masks and heights (indexed by animation frame),
the two pipe sprite masks and the top pipe's dimensions, and the ground tile
width `Ground.WIDTH = GROUND_IMAGE.get_width()`. -/
structure Env where
  birdMask : ℕ → Mask
  birdImgH : ℕ → ℤ
  topMask : Mask
  botMask : Mask
  pipeTopW : ℤ
  pipeTopH : ℤ
  groundW : ℤ

/-! ## Bird (flappy_bird.py lines 28–117) -/

/-- The bird's state.  `image` is the index of the current sprite in
`BIRD_IMAGES` (the code stores the surface itself; only the index matters). -/
structure Bird where
  x : ℤ
  y : ℚ
  angle : ℤ
  speed : ℚ
  height : ℚ
  time : ℕ
  image_count : ℕ
  image : ℕ
  deriving DecidableEq, Repr

/-- `Bird.MAX_ROTATION = 25`. -/
def MAX_ROTATION : ℤ := 25

/-- `Bird.ROTATION_SPEED = 20`. -/
def ROTATION_SPEED : ℤ := 20

/-- `Bird.ANIMATION_TIME = 5`. -/
def ANIMATION_TIME : ℕ := 5

/-- `Bird.__init__(x, y)` (lines 41–49): angle, speed, time and the animation
counter start at 0, `height = y`, and the image is `IMGS[0]`. -/
def Bird.init (x : ℤ) (y : ℚ) : Bird :=
  { x := x, y := y, angle := 0, speed := 0, height := y,
    time := 0, image_count := 0, image := 0 }

/-- `Bird.jump()` (lines 51–59): `speed = -10.5`, `time = 0`,
`height = self.y`. -/
def Bird.jump (b : Bird) : Bird :=
  { b with speed := -21/2, time := 0, height := b.y }

/-- The raw kinematic displacement `1.5 * t**2 + v0 * t` (line 72). -/
def rawDisp (t : ℕ) (v0 : ℚ) : ℚ := 3/2 * (t : ℚ) ^ 2 + v0 * (t : ℚ)

/-- The restriction applied to the raw displacement (lines 75–78): values
above 16 are clamped to 16; negative values get an extra 2 subtracted. -/
def restrictDisp (d : ℚ) : ℚ :=
  if d > 16 then 16 else if d < 0 then d - 2 else d

/-- The displacement one `move()` call adds to `y` when the pre-call elapsed
time is `t - 1` (so `t` is the post-increment counter) and the impulse is
`v0`. -/
def dispAt (t : ℕ) (v0 : ℚ) : ℚ := restrictDisp (rawDisp t v0)

/-- `Bird.move()` (lines 63–87): increments `time`, adds the restricted
displacement to `y`, then updates the angle: while the (restricted)
displacement is negative or `y` is still above `height + 50` the angle is
raised to at least 25; otherwise it drops by 20 while above −90. -/
def Bird.move (b : Bird) : Bird :=
  let t := b.time + 1
  let displacement := restrictDisp (rawDisp t b.speed)
  let y' := b.y + displacement
  let angle' :=
    if displacement < 0 ∨ y' < b.height + 50 then max b.angle MAX_ROTATION
    else if b.angle > -90 then b.angle - ROTATION_SPEED else b.angle
  { b with time := t, y := y', angle := angle' }

/-- The animation/image update performed by `Bird.draw` (lines 89–108),
omitting the actual blitting: the counter is incremented, the sprite index is
selected from the 4-phase table, the counter resets once it passes
`4 * ANIMATION_TIME + 1`, and a diving bird (angle ≤ −80) is forced to sprite
1 with the counter parked at `2 * ANIMATION_TIME`. -/
def Bird.drawUpdate (b : Bird) : Bird :=
  let c := b.image_count + 1
  let sel : ℕ × ℕ :=
    if c < ANIMATION_TIME then (0, c)
    else if c < ANIMATION_TIME * 2 then (1, c)
    else if c < ANIMATION_TIME * 3 then (2, c)
    else if c < ANIMATION_TIME * 4 then (1, c)
    else if c ≥ ANIMATION_TIME * 4 + 1 then (0, 0)
    else (b.image, c)
  if b.angle ≤ -80 then { b with image_count := ANIMATION_TIME * 2, image := 1 }
  else { b with image_count := sel.2, image := sel.1 }

/-! ## Pipe (flappy_bird.py lines 119–177) -/

/-- `Pipe.DISTANCE = 200`. -/
def DISTANCE : ℤ := 200

/-- `Pipe.SPEED = 5`. -/
def PIPE_SPEED : ℤ := 5

/-- A pipe obstacle.  The sprite surfaces are per-class constants held in
`Env`. -/
structure Pipe where
  x : ℤ
  height : ℤ
  top_pos : ℤ
  bottom_pos : ℤ
  passed : Bool
  deriving DecidableEq, Repr

/-- `Pipe.__init__(x)` followed by `set_height()` (lines 129–142): `r` is the
value drawn by `random.randrange(50, 475)` and `topH` is
`PIPE_TOP.get_height()`. -/
def Pipe.create (x r topH : ℤ) : Pipe :=
  { x := x, height := r, top_pos := r - topH, bottom_pos := r + DISTANCE,
    passed := false }

/-- `Pipe.move()` (lines 144–145): `x -= SPEED`. -/
def Pipe.move (p : Pipe) : Pipe := { p with x := p.x - PIPE_SPEED }

/-- `Pipe.collide(bird)` (lines 151–177): pixel-mask overlap of the bird's
current sprite mask against the top and bottom pipe masks at the relative
offsets. -/
def Pipe.collide (env : Env) (p : Pipe) (b : Bird) : Bool :=
  let bird_mask := env.birdMask b.image
  let top_offset := (p.x - b.x, p.top_pos - pyRound b.y)
  let bottom_offset := (p.x - b.x, p.bottom_pos - pyRound b.y)
  bird_mask.overlapAt env.topMask top_offset ||
    bird_mask.overlapAt env.botMask bottom_offset

/-- `Pipe.collide` written in state-threading style: the Python method reads
the pipe and the bird and returns a boolean; the returned pipe and bird
record any field writes the method performs (there are none in the source:
every statement of lines 164–177 is a read or a local binding). -/
def Pipe.collideSt (env : Env) (p : Pipe) (b : Bird) : Bool × Pipe × Bird :=
  (Pipe.collide env p b, p, b)

/-! ## Ground (flappy_bird.py lines 179–196) -/

/-- `Ground.SPEED = 5`. -/
def GROUND_SPEED : ℤ := 5

/-- The scrolling ground: two tile offsets.  `Ground.WIDTH` is the ground
image's width, a parameter (`Env.groundW`). -/
structure Ground where
  y : ℤ
  x1 : ℤ
  x2 : ℤ
  deriving DecidableEq, Repr

/-- `Ground.__init__(y)` (lines 184–187): `x1 = 0`, `x2 = WIDTH`. -/
def Ground.init (y W : ℤ) : Ground := { y := y, x1 := 0, x2 := W }

/-- `Ground.move()` (lines 189–196): both tiles scroll left by 5; a tile that
has fully left the screen is re-positioned to follow the other. -/
def Ground.move (W : ℤ) (g : Ground) : Ground :=
  let x1 := g.x1 - GROUND_SPEED
  let x2 := g.x2 - GROUND_SPEED
  let x1 := if x1 + W < 0 then x2 + W else x1
  let x2 := if x2 + W < 0 then x1 + W else x2
  { g with x1 := x1, x2 := x2 }

/-! ## Game session: one iteration of the main loop (flappy_bird.py 231–286)

The `birds` list only ever holds one bird (a single `Bird(230, 350)` is
created and any removal immediately restarts the game), so the session
carries a single bird.  A tick either continues running or reaches a
terminal condition (`game_over_screen` followed by a recursive restart),
modelled as `none`. -/

structure Session where
  bird : Bird
  pipes : List Pipe
  ground : Ground
  score : ℕ
  deriving DecidableEq, Repr

/-- The pass test of line 267: `not pipe.passed and bird.x > pipe.x`. -/
def passCond (b : Bird) (p : Pipe) : Bool := !p.passed && decide (b.x > p.x)

/-- The per-pipe sweep of lines 267–270, for one pipe: if the pass test
fires, set `passed` and fire the `add_pipe` flag; then move the pipe. -/
def sweepOne (b : Bird) (p : Pipe) : Pipe × Bool :=
  if passCond b p then (Pipe.move { p with passed := true }, true)
  else (Pipe.move p, false)

/-- The pipe sweep of lines 259–272: pipes are processed in order; a
collision with the (already moved) bird ends the session (`none`); otherwise
each pipe has its `passed`/`add_pipe` bookkeeping and move applied, and the
`add_pipe` flags are or-ed together (the single boolean of line 259). -/
def sweepPipes (env : Env) (b : Bird) : List Pipe → Option (List Pipe × Bool)
  | [] => some ([], false)
  | p :: rest =>
    if Pipe.collide env p b then none
    else
      match sweepPipes env b rest with
      | none => none
      | some (ps, f) => some ((sweepOne b p).1 :: ps, (sweepOne b p).2 || f)

/-- One iteration of the `while running` loop (lines 240–286), given the
drained input (`jumpPressed`: was `K_SPACE` pressed this tick) and the value
`r` that `random.randrange(50, 475)` returns if a new pipe is created.
Returns `none` when a terminal condition fires (collision, ground, or
ceiling — the code then shows the game-over screen and restarts), and the
next session state otherwise.  The pipe retirement test of line 271 is
applied after the optional spawn, exactly as lines 274–278 do. -/
def tick (env : Env) (r : ℤ) (jumpPressed : Bool) (s : Session) :
    Option Session :=
  let b1 := if jumpPressed then Bird.jump s.bird else s.bird
  let b2 := Bird.move b1
  let g := Ground.move env.groundW s.ground
  match sweepPipes env b2 s.pipes with
  | none => none
  | some (ps, fired) =>
    let score := if fired then s.score + 1 else s.score
    let ps := if fired then ps ++ [Pipe.create 600 r env.pipeTopH] else ps
    let ps := ps.filter fun p => !(p.x + env.pipeTopW < 0)
    if b2.y + (env.birdImgH b2.image : ℚ) > (g.y : ℚ) ∨ b2.y < 0 then none
    else some { bird := Bird.drawUpdate b2, pipes := ps, ground := g,
                score := score }

/-- The initial session of `main()` (lines 231–236): bird at (230, 350), one
pipe at x=700 with gap draw `r0`, ground at y=730, score 0. -/
def Session.init (env : Env) (r0 : ℤ) : Session :=
  { bird := Bird.init 230 350, pipes := [Pipe.create 700 r0 env.pipeTopH],
    ground := Ground.init 730 env.groundW, score := 0 }

/-! ## Auxiliary notions used by the theorems -/

/-- The two operations the game ever performs on a bird between renders:
a jump impulse or a physics step. -/
inductive BirdAct where
  | jump : BirdAct
  | move : BirdAct
  deriving DecidableEq, Repr

/-- Apply one bird action. -/
def applyAct : BirdAct → Bird → Bird
  | .jump => Bird.jump
  | .move => Bird.move

/-- Apply a sequence of bird actions, left to right. -/
def applyActs : List BirdAct → Bird → Bird
  | [], b => b
  | a :: tl, b => applyActs tl (applyAct a b)

/-- The set of rotation angles reachable from a fresh bird (angle 0) under
any sequence of jumps and moves. -/
def angleSet : List ℤ :=
  [25, 5, -15, -35, -55, -75, -95, 0, -20, -40, -60, -80, -100]

/-- The condition of line 83 under which `move()` holds the angle at the
upward tilt instead of letting it fall: the (restricted) displacement is
negative or the new `y` is still above `height + 50`. -/
def moveRising (b : Bird) : Prop :=
  restrictDisp (rawDisp (b.time + 1) b.speed) < 0 ∨
    b.y + restrictDisp (rawDisp (b.time + 1) b.speed) < b.height + 50

instance (b : Bird) : Decidable (moveRising b) := by
  unfold moveRising; infer_instance

/-- Modelled from the spec: the animation schedule the amended claim C8
describes, as a function of the call number reduced mod 21 — frames
[0,1,2,1] with the first phase lasting 4 calls (post-increment counters
1–4), the middle phases 5 calls each, the final `1` phase 6 calls (the
leftover counter value 20 keeps the previous frame), and the reset call
(counter 21, call number ≡ 0 mod 21) showing frame 0. -/
def animSched (r : ℕ) : ℕ :=
  if r = 0 then 0
  else if r < 5 then 0
  else if r < 10 then 1
  else if r < 15 then 2
  else 1

/-- A concrete environment for closed evaluations: the sprite dimensions of
the standard 2×-scaled assets (bird 68×48, pipe 104×640, ground tile 672
wide) and empty pixel masks (no collision can occur). -/
def envC : Env :=
  { birdMask := fun _ => ([] : List (ℤ × ℤ)), birdImgH := fun _ => 48,
    topMask := ([] : List (ℤ × ℤ)), botMask := ([] : List (ℤ × ℤ)),
    pipeTopW := 104, pipeTopH := 640, groundW := 672 }

/-- A concrete running session in which the bird (x = 230) is past two
not-yet-passed pipes (x = 100 and x = 150) at once. -/
def s3 : Session :=
  { bird := Bird.init 230 350,
    pipes := [Pipe.create 100 260 640, Pipe.create 150 300 640],
    ground := Ground.init 730 672, score := 0 }

/-- A bird in the diving pose (angle below −80). -/
def divingBird : Bird := { Bird.init 230 350 with angle := -85 }

/-! ## Supporting lemmas -/

theorem Ground.move_y (W : ℤ) (g : Ground) : (Ground.move W g).y = g.y := rfl

theorem sweepOne_snd (b : Bird) (p : Pipe) : (sweepOne b p).2 = passCond b p := by
  unfold sweepOne
  split <;> simp_all

theorem sweepPipes_none_iff (env : Env) (b : Bird) (ps : List Pipe) :
    sweepPipes env b ps = none ↔ ∃ p ∈ ps, Pipe.collide env p b = true := by
  induction ps with
  | nil => simp [sweepPipes]
  | cons p rest ih =>
    by_cases hc : Pipe.collide env p b
    · simp [sweepPipes, hc]
    · rcases hsw : sweepPipes env b rest with _ | ⟨ps', f⟩
      · simp_all [sweepPipes]
      · simp_all [sweepPipes]

theorem sweepPipes_of_no_collide (env : Env) (b : Bird) (ps : List Pipe)
    (h : ∀ p ∈ ps, Pipe.collide env p b = false) :
    sweepPipes env b ps =
      some (ps.map (fun p => (sweepOne b p).1), ps.any (passCond b)) := by
  induction ps with
  | nil => rfl
  | cons p rest ih =>
    have hp : Pipe.collide env p b = false := h p (List.mem_cons_self p rest)
    have hrest := ih fun q hq => h q (List.mem_cons_of_mem p hq)
    simp [sweepPipes, hp, hrest, sweepOne_snd]

theorem mem_angleSet_bounds : ∀ a ∈ angleSet, -100 ≤ a ∧ a ≤ 25 := by decide

theorem angleSet_closed :
    ∀ a ∈ angleSet, max a MAX_ROTATION ∈ angleSet ∧
      (a - ROTATION_SPEED ∈ angleSet ∨ a ≤ -90) := by decide

theorem move_angle_mem (b : Bird) (h : b.angle ∈ angleSet) :
    (Bird.move b).angle ∈ angleSet := by
  have hc := angleSet_closed b.angle h
  simp only [Bird.move]
  split_ifs with h1 h2
  · exact hc.1
  · rcases hc.2 with h3 | h3
    · exact h3
    · omega
  · exact h

theorem applyActs_angle_mem (acts : List BirdAct) (b : Bird)
    (h : b.angle ∈ angleSet) : (applyActs acts b).angle ∈ angleSet := by
  induction acts generalizing b with
  | nil => exact h
  | cons a tl ih =>
    cases a with
    | jump => exact ih (Bird.jump b) h
    | move => exact ih (Bird.move b) (move_angle_mem b h)

/-- The invariant the two ground tiles maintain: they are adjacent (one
exactly one tile width after the other) and the left one sits in `[-W, 0]`. -/
def GroundInv (W : ℤ) (g : Ground) : Prop :=
  (g.x2 = g.x1 + W ∧ -W ≤ g.x1 ∧ g.x1 ≤ 0) ∨
    (g.x1 = g.x2 + W ∧ -W ≤ g.x2 ∧ g.x2 ≤ 0)

theorem groundInv_init (gy W : ℤ) (hW : 0 ≤ W) :
    GroundInv W (Ground.init gy W) := by
  left
  simp only [Ground.init]
  omega

theorem groundInv_step (W : ℤ) (hW : 5 ≤ W) (g : Ground)
    (h : GroundInv W g) : GroundInv W (Ground.move W g) := by
  rcases h with ⟨h1, h2, h3⟩ | ⟨h1, h2, h3⟩ <;>
    · simp only [GroundInv, Ground.move, GROUND_SPEED]
      split_ifs <;> omega

theorem groundInv_iterate (gy W : ℤ) (hW : 5 ≤ W) (n : ℕ) :
    GroundInv W ((Ground.move W)^[n] (Ground.init gy W)) := by
  induction n with
  | zero => exact groundInv_init gy W (by omega)
  | succ k ih =>
    rw [Function.iterate_succ_apply']
    exact groundInv_step W hW _ ih

theorem drawUpdate_cycle :
    Bird.drawUpdate^[21] (Bird.init 230 350) = Bird.init 230 350 := by decide

theorem drawUpdate_periodic (n : ℕ) :
    Bird.drawUpdate^[n + 21] (Bird.init 230 350) =
      Bird.drawUpdate^[n] (Bird.init 230 350) := by
  rw [Function.iterate_add_apply, drawUpdate_cycle]

theorem drawUpdate_table :
    ∀ n < 21, (Bird.drawUpdate^[n + 1] (Bird.init 230 350)).image =
      animSched ((n + 1) % 21) := by decide

/-! ## The claims -/

/-- C1: each `move()` call increments the elapsed-tick counter by 1 and adds
to `y` the displacement `1.5·t² + v0·t` (with `t` the incremented counter and
`v0` the impulse of the last jump, 0 initially), clamped above at +16 and
with an extra 2 subtracted when the raw value is negative; in particular at
`t = 0, 1, 2, 10` the displacement is exactly 0, 1.5, 6, 16 for `v0 = 0` and
0, −11, −17, 16 for `v0 = −10.5` (both the clamp and the −2 branch are
exercised). -/
theorem move_displacement_formula (b : Bird) :
    ((Bird.move b).time = b.time + 1 ∧
      (Bird.move b).y = b.y + dispAt (b.time + 1) b.speed) ∧
    (∀ v0 : ℚ, dispAt 0 v0 = 0) ∧
    (dispAt 1 0 = 3/2 ∧ dispAt 2 0 = 6 ∧ dispAt 10 0 = 16) ∧
    (dispAt 1 (-21/2) = -11 ∧ dispAt 2 (-21/2) = -17 ∧
      dispAt 10 (-21/2) = 16) := by
  refine ⟨⟨rfl, rfl⟩, fun v0 => ?_, ⟨?_, ?_, ?_⟩, ⟨?_, ?_, ?_⟩⟩ <;>
    norm_num [dispAt, rawDisp, restrictDisp]

/-- C7: `jump()` sets the impulse to −10.5 (= −21/2), resets the elapsed
counter to 0 and records the current `y` as the reference height; every
other field (`x`, `y`, `angle`, `image_count`, `image`) is unchanged.  It is
a total function of the prior state, so it always succeeds. -/
theorem jump_contract (b : Bird) :
    (Bird.jump b).speed = -21/2 ∧ (Bird.jump b).time = 0 ∧
    (Bird.jump b).height = b.y ∧ (Bird.jump b).x = b.x ∧
    (Bird.jump b).y = b.y ∧ (Bird.jump b).angle = b.angle ∧
    (Bird.jump b).image_count = b.image_count ∧
    (Bird.jump b).image = b.image :=
  ⟨rfl, rfl, rfl, rfl, rfl, rfl, rfl, rfl⟩

/-- C9: `jump()` is idempotent: two (hence any number of) consecutive
`jump()` calls with no `move()` in between leave the bird in exactly the
state one call produces, so multiple presses within one tick collapse to a
single jump. -/
theorem jump_idempotent (b : Bird) : Bird.jump (Bird.jump b) = Bird.jump b :=
  rfl

/-- C10: `collide(bird)` is a pure query: it returns the pipe and the bird
with every field unchanged, and calling it again on the returned states
yields the same boolean and the same states. -/
theorem collide_pure (env : Env) (p : Pipe) (b : Bird) :
    ((Pipe.collideSt env p b).2.1 = p ∧ (Pipe.collideSt env p b).2.2 = b) ∧
    Pipe.collideSt env (Pipe.collideSt env p b).2.1
        (Pipe.collideSt env p b).2.2 = Pipe.collideSt env p b :=
  ⟨⟨rfl, rfl⟩, rfl⟩

/-- C6: an obstacle created from a gap draw `r` of `randrange(50, 475)`
(so `50 ≤ r < 475`) has its gap height in `[50, 475)`, top edge
`height − topImageHeight` and bottom edge `height + 200`; and no number of
`move()` calls ever changes these three fields. -/
theorem pipe_geometry (x r topH : ℤ) (n : ℕ) (h1 : 50 ≤ r) (h2 : r < 475) :
    (50 ≤ (Pipe.create x r topH).height ∧ (Pipe.create x r topH).height < 475) ∧
    (Pipe.create x r topH).top_pos = (Pipe.create x r topH).height - topH ∧
    (Pipe.create x r topH).bottom_pos = (Pipe.create x r topH).height + 200 ∧
    (Pipe.move^[n] (Pipe.create x r topH)).height =
      (Pipe.create x r topH).height ∧
    (Pipe.move^[n] (Pipe.create x r topH)).top_pos =
      (Pipe.create x r topH).top_pos ∧
    (Pipe.move^[n] (Pipe.create x r topH)).bottom_pos =
      (Pipe.create x r topH).bottom_pos := by
  have hm : ∀ (q : Pipe) (m : ℕ), (Pipe.move^[m] q).height = q.height ∧
      (Pipe.move^[m] q).top_pos = q.top_pos ∧
      (Pipe.move^[m] q).bottom_pos = q.bottom_pos := by
    intro q m
    induction m with
    | zero => exact ⟨rfl, rfl, rfl⟩
    | succ k ih =>
      rw [Function.iterate_succ_apply']
      simpa [Pipe.move] using ih
  exact ⟨⟨h1, h2⟩, rfl, rfl, (hm _ n).1, (hm _ n).2.1, (hm _ n).2.2⟩

/-- Witness for C6 at the spec's sample: gap draw 260, top image height 640,
creation at x = 700, 40 moves. -/
theorem pipe_geometry_witness :
    (50 ≤ (260 : ℤ) ∧ (260 : ℤ) < 475) ∧
    ((50 ≤ (Pipe.create 700 260 640).height ∧
        (Pipe.create 700 260 640).height < 475) ∧
      (Pipe.create 700 260 640).top_pos =
        (Pipe.create 700 260 640).height - 640 ∧
      (Pipe.create 700 260 640).bottom_pos =
        (Pipe.create 700 260 640).height + 200 ∧
      (Pipe.move^[40] (Pipe.create 700 260 640)).height =
        (Pipe.create 700 260 640).height ∧
      (Pipe.move^[40] (Pipe.create 700 260 640)).top_pos =
        (Pipe.create 700 260 640).top_pos ∧
      (Pipe.move^[40] (Pipe.create 700 260 640)).bottom_pos =
        (Pipe.create 700 260 640).bottom_pos) :=
  ⟨⟨by norm_num, by norm_num⟩,
    pipe_geometry 700 260 640 40 (by norm_num) (by norm_num)⟩

/-- C2: a tick of the main loop ends the session (game over and restart)
exactly when, for the bird state of that tick (input applied, then moved),
either (a) its pixel mask overlaps the top or bottom pipe mask of some
active obstacle, or (b) its bottom edge `y + sprite height` is strictly
below the ground level `ground.y`, or (c) its top edge is above the top of
the screen (`y < 0`); otherwise the session keeps running. -/
theorem terminal_iff (env : Env) (r : ℤ) (jp : Bool) (s : Session) :
    tick env r jp s = none ↔
      ((∃ p ∈ s.pipes,
          Pipe.collide env p (Bird.move (if jp then Bird.jump s.bird else s.bird)) = true) ∨
        (Bird.move (if jp then Bird.jump s.bird else s.bird)).y +
            ((env.birdImgH (Bird.move (if jp then Bird.jump s.bird else s.bird)).image : ℤ) : ℚ) >
          (s.ground.y : ℚ) ∨
        (Bird.move (if jp then Bird.jump s.bird else s.bird)).y < 0) := by
  simp only [tick, Ground.move_y]
  rcases hsw : sweepPipes env (Bird.move (if jp then Bird.jump s.bird else s.bird)) s.pipes with
      _ | ⟨ps', fired⟩
  · simp only [hsw]
    have hcol := (sweepPipes_none_iff env _ s.pipes).mp hsw
    simp [hcol]
  · have hnc : ¬∃ p ∈ s.pipes,
        Pipe.collide env p (Bird.move (if jp then Bird.jump s.bird else s.bird)) = true := by
      rw [← sweepPipes_none_iff env _ s.pipes, hsw]
      simp
    simp only [hsw]
    by_cases ht :
        (Bird.move (if jp then Bird.jump s.bird else s.bird)).y +
            ((env.birdImgH (Bird.move (if jp then Bird.jump s.bird else s.bird)).image : ℤ) : ℚ) >
          (s.ground.y : ℚ) ∨
        (Bird.move (if jp then Bird.jump s.bird else s.bird)).y < 0
    · rw [if_pos ht]
      exact iff_of_true rfl (Or.inr ht)
    · rw [if_neg ht]
      refine iff_of_false (by simp) ?_
      rintro (hc | hob)
      · exact hnc hc
      · exact ht hob

/-- C4: starting from the initial ground state (`x1 = 0`, `x2 = W` with `W`
the tile width) and applying `move()` any number of times, provided the tile
is at least as wide as the screen (the shipped asset is 672 ≥ 500 pixels
wide), at least one tile offset lies in `(−W, W]` and every screen column
`p ∈ [0, 500)` is covered by one of the two tiles `[x, x + W)`: the belt has
no gap. -/
theorem ground_coverage (gy W p : ℤ) (n : ℕ) (hW : 500 ≤ W) (hp0 : 0 ≤ p)
    (hp1 : p < 500) :
    ((-W < ((Ground.move W)^[n] (Ground.init gy W)).x1 ∧
        ((Ground.move W)^[n] (Ground.init gy W)).x1 ≤ W) ∨
      (-W < ((Ground.move W)^[n] (Ground.init gy W)).x2 ∧
        ((Ground.move W)^[n] (Ground.init gy W)).x2 ≤ W)) ∧
    ((((Ground.move W)^[n] (Ground.init gy W)).x1 ≤ p ∧
        p < ((Ground.move W)^[n] (Ground.init gy W)).x1 + W) ∨
      (((Ground.move W)^[n] (Ground.init gy W)).x2 ≤ p ∧
        p < ((Ground.move W)^[n] (Ground.init gy W)).x2 + W)) := by
  have h := groundInv_iterate gy W (by omega) n
  rcases h with ⟨h1, h2, h3⟩ | ⟨h1, h2, h3⟩ <;> constructor <;> omega

/-- Witness for C4 at the shipped tile width 672, after 1000 ticks, at
screen column 250. -/
theorem ground_coverage_witness :
    (500 ≤ (672 : ℤ) ∧ 0 ≤ (250 : ℤ) ∧ (250 : ℤ) < 500) ∧
    (((-672 < ((Ground.move 672)^[1000] (Ground.init 730 672)).x1 ∧
        ((Ground.move 672)^[1000] (Ground.init 730 672)).x1 ≤ 672) ∨
      (-672 < ((Ground.move 672)^[1000] (Ground.init 730 672)).x2 ∧
        ((Ground.move 672)^[1000] (Ground.init 730 672)).x2 ≤ 672)) ∧
    ((((Ground.move 672)^[1000] (Ground.init 730 672)).x1 ≤ 250 ∧
        250 < ((Ground.move 672)^[1000] (Ground.init 730 672)).x1 + 672) ∨
      (((Ground.move 672)^[1000] (Ground.init 730 672)).x2 ≤ 250 ∧
        250 < ((Ground.move 672)^[1000] (Ground.init 730 672)).x2 + 672))) :=
  ⟨⟨by norm_num, by norm_num, by norm_num⟩,
    ground_coverage 730 672 250 1000 (by norm_num) (by norm_num) (by norm_num)⟩

/-- C5 counterexample: the claim says the angle "never goes below that floor
of −90 degrees", but from the initial state (angle 0) ten gravity-only
`move()` calls leave the angle at −95: the guard `angle > -90` lets the last
20-degree decrement overshoot the floor. -/
theorem angle_floor_counterexample :
    (applyActs (List.replicate 10 .move) (Bird.init 230 350)).angle = -95 ∧
    (applyActs (List.replicate 10 .move) (Bird.init 230 350)).angle < -90 := by
  have h : (applyActs (List.replicate 10 .move) (Bird.init 230 350)).angle = -95 := by
    norm_num [applyActs, applyAct, Bird.move, Bird.init, rawDisp, restrictDisp,
      MAX_ROTATION, ROTATION_SPEED, List.replicate, max_def]
  exact ⟨h, by rw [h]; norm_num⟩

/-- C5 (amended): for every sequence of `jump()`/`move()` calls from a fresh
bird (angle 0) the angle stays within `[−100, 25]`; when the bird is not
rising, one `move()` decreases the angle by exactly 20 while it is still
above −90 and leaves it unchanged once it is at or below −90 — so the angle
can overshoot the −90 pose by up to 10 degrees (reaching −95 or −100) but
never goes below −100. -/
theorem angle_bounds (x : ℤ) (y : ℚ) (acts : List BirdAct) :
    (-100 ≤ (applyActs acts (Bird.init x y)).angle ∧
      (applyActs acts (Bird.init x y)).angle ≤ 25) ∧
    (¬ moveRising (applyActs acts (Bird.init x y)) →
      (Bird.move (applyActs acts (Bird.init x y))).angle =
        if (applyActs acts (Bird.init x y)).angle > -90
        then (applyActs acts (Bird.init x y)).angle - 20
        else (applyActs acts (Bird.init x y)).angle) := by
  have hmem : (applyActs acts (Bird.init x y)).angle ∈ angleSet :=
    applyActs_angle_mem acts _
      (by rw [show (Bird.init x y).angle = 0 from rfl]; decide)
  constructor
  · exact mem_angleSet_bounds _ hmem
  · intro hnr
    simp only [moveRising] at hnr
    simp only [Bird.move, if_neg hnr]
    rfl

/-- Witness for C5: after five gravity-only moves the bird (angle 5, y 403)
is not rising, and the next `move()` takes the angle from 5 to −15. -/
theorem angle_bounds_witness :
    ¬ moveRising (applyActs (List.replicate 5 .move) (Bird.init 230 350)) ∧
    (Bird.move (applyActs (List.replicate 5 .move) (Bird.init 230 350))).angle =
      (if (applyActs (List.replicate 5 .move) (Bird.init 230 350)).angle > -90
       then (applyActs (List.replicate 5 .move) (Bird.init 230 350)).angle - 20
       else (applyActs (List.replicate 5 .move) (Bird.init 230 350)).angle) := by
  have hnr : ¬ moveRising (applyActs (List.replicate 5 .move) (Bird.init 230 350)) := by
    norm_num [moveRising, applyActs, applyAct, Bird.move, Bird.init, rawDisp,
      restrictDisp, MAX_ROTATION, ROTATION_SPEED, List.replicate, max_def]
  exact ⟨hnr, (angle_bounds 230 350 (List.replicate 5 .move)).2 hnr⟩

/-- C3 counterexample: in session `s3` the bird (x = 230) passes two pipes
(x = 100 and x = 150, neither `passed`) in the same tick, yet the tick
increments the score by 1 (not 2) and appends a single new pipe (2 old
pipes + 1 new = 3, not 4): the single `add_pipe` boolean coalesces
simultaneous pass events. -/
theorem simultaneous_pass_counterexample :
    2 ≤ (s3.pipes.filter (passCond (Bird.move s3.bird))).length ∧
    s3.score = 0 ∧ s3.pipes.length = 2 ∧
    (tick envC 200 false s3).map Session.score = some 1 ∧
    (tick envC 200 false s3).map (fun s' => s'.pipes.length) = some 3 := by
  refine ⟨?_, rfl, rfl, ?_, ?_⟩ <;>
    norm_num [tick, s3, envC, sweepPipes, sweepOne, passCond, Pipe.collide,
      Pipe.create, Mask.overlapAt, Bird.move, Bird.init, rawDisp, restrictDisp,
      MAX_ROTATION, ROTATION_SPEED, Ground.move, Ground.init, Pipe.move,
      PIPE_SPEED, GROUND_SPEED, DISTANCE, Bird.drawUpdate, ANIMATION_TIME,
      List.filter, max_def]

/-- C3 (amended): when two or more obstacles are passed in the same tick
(and nothing terminal happens), the sweep increments the score by exactly 1
and spawns exactly one new obstacle at x = 600 — simultaneous pass events
are coalesced through the single `add_pipe` flag, not scored independently. -/
theorem simultaneous_pass_coalesced (env : Env) (r : ℤ) (jp : Bool)
    (s : Session)
    (hnc : ∀ p ∈ s.pipes,
      Pipe.collide env p (Bird.move (if jp then Bird.jump s.bird else s.bird)) = false)
    (hn : 2 ≤ (s.pipes.filter
      (passCond (Bird.move (if jp then Bird.jump s.bird else s.bird)))).length)
    (ha : ¬((Bird.move (if jp then Bird.jump s.bird else s.bird)).y +
          ((env.birdImgH (Bird.move (if jp then Bird.jump s.bird else s.bird)).image : ℤ) : ℚ) >
        (s.ground.y : ℚ) ∨
      (Bird.move (if jp then Bird.jump s.bird else s.bird)).y < 0)) :
    tick env r jp s = some
      { bird := Bird.drawUpdate (Bird.move (if jp then Bird.jump s.bird else s.bird)),
        pipes := ((s.pipes.map fun p =>
            (sweepOne (Bird.move (if jp then Bird.jump s.bird else s.bird)) p).1)
              ++ [Pipe.create 600 r env.pipeTopH]).filter
            (fun p => !(p.x + env.pipeTopW < 0)),
        ground := Ground.move env.groundW s.ground,
        score := s.score + 1 } := by
  have hfired : s.pipes.any
      (passCond (Bird.move (if jp then Bird.jump s.bird else s.bird))) = true := by
    have hpos : 0 < (s.pipes.filter
        (passCond (Bird.move (if jp then Bird.jump s.bird else s.bird)))).length := by
      omega
    obtain ⟨p, hp⟩ := List.exists_mem_of_length_pos hpos
    rw [List.mem_filter] at hp
    exact List.any_eq_true.mpr ⟨p, hp.1, hp.2⟩
  simp only [tick, Ground.move_y, sweepPipes_of_no_collide env _ s.pipes hnc,
    hfired, if_true, if_neg ha]

/-- Witness for C3 (amended), at the concrete two-pass session `s3`. -/
theorem simultaneous_pass_coalesced_witness :
    (∀ p ∈ s3.pipes,
      Pipe.collide envC p (Bird.move (if false then Bird.jump s3.bird else s3.bird)) = false) ∧
    (2 ≤ (s3.pipes.filter
      (passCond (Bird.move (if false then Bird.jump s3.bird else s3.bird)))).length) ∧
    (¬((Bird.move (if false then Bird.jump s3.bird else s3.bird)).y +
          ((envC.birdImgH (Bird.move (if false then Bird.jump s3.bird else s3.bird)).image : ℤ) : ℚ) >
        (s3.ground.y : ℚ) ∨
      (Bird.move (if false then Bird.jump s3.bird else s3.bird)).y < 0)) ∧
    tick envC 200 false s3 = some
      { bird := Bird.drawUpdate (Bird.move (if false then Bird.jump s3.bird else s3.bird)),
        pipes := ((s3.pipes.map fun p =>
            (sweepOne (Bird.move (if false then Bird.jump s3.bird else s3.bird)) p).1)
              ++ [Pipe.create 600 200 envC.pipeTopH]).filter
            (fun p => !(p.x + envC.pipeTopW < 0)),
        ground := Ground.move envC.groundW s3.ground,
        score := s3.score + 1 } := by
  have h1 : ∀ p ∈ s3.pipes,
      Pipe.collide envC p (Bird.move (if false then Bird.jump s3.bird else s3.bird)) = false := by
    intro p hp
    simp [Pipe.collide, Mask.overlapAt, envC]
  have h2 : 2 ≤ (s3.pipes.filter
      (passCond (Bird.move (if false then Bird.jump s3.bird else s3.bird)))).length := by
    norm_num [s3, passCond, Pipe.create, Bird.move, Bird.init, rawDisp,
      restrictDisp, MAX_ROTATION, ROTATION_SPEED, List.filter, max_def]
  have h3 : ¬((Bird.move (if false then Bird.jump s3.bird else s3.bird)).y +
        ((envC.birdImgH (Bird.move (if false then Bird.jump s3.bird else s3.bird)).image : ℤ) : ℚ) >
      (s3.ground.y : ℚ) ∨
    (Bird.move (if false then Bird.jump s3.bird else s3.bird)).y < 0) := by
    norm_num [s3, envC, Bird.move, Bird.init, rawDisp, restrictDisp,
      MAX_ROTATION, ROTATION_SPEED, Ground.init, max_def]
  exact ⟨h1, h2, h3, simultaneous_pass_coalesced envC 200 false s3 h1 h2 h3⟩

/-- C8 counterexample: the claimed schedule — frames [0,1,2,1] at 5 ticks
per phase restarting after a 20-tick cycle — would show the same frame at
draw calls 5 and 25 and keep the first frame through call 5; the code shows
frame 0 at call 4, frame 1 at call 5 and frame 0 at call 25: the first
phase lasts only 4 calls and the true period is 21. -/
theorem animation_cycle_counterexample :
    (Bird.drawUpdate^[4] (Bird.init 230 350)).image = 0 ∧
    (Bird.drawUpdate^[5] (Bird.init 230 350)).image = 1 ∧
    (Bird.drawUpdate^[25] (Bird.init 230 350)).image = 0 :=
  ⟨by decide, by decide, by decide⟩

/-- C8 (amended): from a fresh bird, draw call `n` shows the frame
`animSched (n % 21)`: the [0,1,2,1] cycle has phases of 4, 5, 5 and 6 calls
(the dead counter value 20 repeats the previous frame and the reset happens
at counter 21), so the cycle restarts after 21 calls, not 20; and whenever
the angle is ≤ −80 the frame is overridden to the gliding frame 1
regardless of the counter. -/
theorem animation_schedule :
    (∀ n : ℕ, (Bird.drawUpdate^[n + 1] (Bird.init 230 350)).image =
      animSched ((n + 1) % 21)) ∧
    (∀ b : Bird, b.angle ≤ -80 → (Bird.drawUpdate b).image = 1) := by
  constructor
  · intro n
    induction n using Nat.strong_induction_on with
    | _ n ih =>
      by_cases h : n < 21
      · exact drawUpdate_table n h
      · have e1 : n + 1 = (n - 21 + 1) + 21 := by omega
        rw [e1, drawUpdate_periodic, Nat.add_mod_right]
        exact ih (n - 21) (by omega)
  · intro b hb
    simp [Bird.drawUpdate, hb]

/-- Witness for C8: the fifth draw call shows frame `animSched (5 % 21) = 1`,
and a diving bird (angle −85 ≤ −80) is forced to frame 1. -/
theorem animation_schedule_witness :
    ((Bird.drawUpdate^[5] (Bird.init 230 350)).image = animSched (5 % 21)) ∧
    divingBird.angle ≤ -80 ∧ (Bird.drawUpdate divingBird).image = 1 :=
  ⟨animation_schedule.1 4, by decide,
    animation_schedule.2 divingBird (by decide)⟩

end FlipBird
